import Mathlib

/-!
Verification of the benchmark-result aggregation scripts
(`scripts/collect_metrics.py` and `scripts/merge_results.py`).

The scripts are embedded shallowly: JSON values become the inductive
`JValue` (numbers as exact rationals), a parsed-and-flattened record
becomes an association list `FlatRec`, Python's `dict.get` becomes
`pyGetD` (raising `AttributeError`, modelled in `Except`, when the
receiver is not a dict), and each script function becomes a Lean
function of the same name.  File systems are modelled as explicit lists
of files (path segments plus parsed-or-unparseable content), so the two
glob passes of `load_results` and the pattern list of `merge_results`
act on those lists.
-/

/-- A JSON value.  Numbers are modelled as exact rationals; `jnull`
stands for both JSON `null` and Python `None`. -/
inductive JValue where
  | jnull : JValue
  | jbool : Bool → JValue
  | jnum : ℚ → JValue
  | jstr : String → JValue
  | jarr : List JValue → JValue
  | jobj : List (String × JValue) → JValue

mutual

/-- Structural equality of JSON values (Python's `==` on parsed JSON). -/
def beqJ : JValue → JValue → Bool
  | .jnull, .jnull => true
  | .jbool a, .jbool b => a == b
  | .jnum a, .jnum b => a == b
  | .jstr a, .jstr b => a == b
  | .jarr as, .jarr bs => beqJList as bs
  | .jobj as, .jobj bs => beqJPairs as bs
  | _, _ => false

/-- Structural equality of JSON arrays. -/
def beqJList : List JValue → List JValue → Bool
  | [], [] => true
  | a :: as, b :: bs => beqJ a b && beqJList as bs
  | _, _ => false

/-- Structural equality of JSON object field lists. -/
def beqJPairs : List (String × JValue) → List (String × JValue) → Bool
  | [], [] => true
  | (ka, a) :: as, (kb, b) :: bs => ka == kb && beqJ a b && beqJPairs as bs
  | _, _ => false

end

/-- Python truthiness of a JSON value (`if v:`). -/
def truthy : JValue → Bool
  | .jnull => false
  | .jbool b => b
  | .jnum q => q != 0
  | .jstr s => s != ""
  | .jarr xs => !xs.isEmpty
  | .jobj fs => !fs.isEmpty

/-- Numeric content of a JSON value; non-numbers give 0 (the statistics
code only ever sees numeric columns). -/
def toNum : JValue → ℚ
  | .jnum q => q
  | _ => 0

/-- String content of a JSON value; non-strings give "". -/
def toStr : JValue → String
  | .jstr s => s
  | _ => ""

/-- The exception the embedding can raise: attribute access on a
non-dict value, as in Python's `data.get(...)` when `data` is not a
dict. -/
inductive PyErr where
  | attributeError : PyErr
deriving DecidableEq

/-- Python's `v.get(k, d)`: returns the value bound to `k` when `v` is
a dict containing `k`, the default `d` when `v` is a dict without `k`,
and raises `AttributeError` when `v` is not a dict. -/
def pyGetD (v : JValue) (k : String) (d : JValue) : Except PyErr JValue :=
  match v with
  | .jobj fs => .ok ((fs.lookup k).getD d)
  | _ => .error .attributeError

/-- A flattened benchmark record: the association list built by the
scripts' flattening code, in insertion order. -/
abbrev FlatRec := List (String × JValue)

/-- Field access on a flattened record (`r[k]` / `r.get(k)`; every
record the scripts build binds all its declared fields, so the `jnull`
default is never observable from script code). -/
def rlookup (r : FlatRec) (k : String) : JValue :=
  (r.lookup k).getD .jnull

/-- The eight top-level fields of `collect_metrics.load_results`, with
their defaults, in the order the script writes them. -/
def collectHeadFields : List (String × JValue) :=
  [("tool", .jnull), ("service", .jnull), ("dockerfile_type", .jnull),
   ("cache_scenario", .jnull), ("run_number", .jnull), ("timestamp", .jnull),
   ("ci_system", .jnull), ("exit_code", .jnum 0)]

/-- The performance metrics both scripts extract, with
`collect_metrics`' defaults, in the order the script writes them. -/
def collectMetricFields : List (String × JValue) :=
  [("build_duration_seconds", .jnull), ("cpu_percent", .jnum 0),
   ("cpu_user_seconds", .jnum 0), ("cpu_system_seconds", .jnum 0),
   ("memory_peak_mb", .jnum 0), ("image_size", .jnull),
   ("image_size_bytes", .jnum 0), ("cache_hits", .jnum 0),
   ("cache_total_steps", .jnum 0), ("cache_hit_ratio", .jnum 0)]

/-- The flattening step of `collect_metrics.load_results` (lines
30–54): top-level fields via `data.get`, then metrics via `perf.get`
where `perf = data.get('performance', data)`.  Raises
`AttributeError` exactly where the Python would. -/
def collectFlatten (data : JValue) : Except PyErr FlatRec := do
  let head ← collectHeadFields.mapM fun (k, d) => do
    pure (k, ← pyGetD data k d)
  let perf ← pyGetD data "performance" data
  let mets ← collectMetricFields.mapM fun (k, d) => do
    pure (k, ← pyGetD perf k d)
  pure (head ++ mets)

/-- The seven top-level fields of `merge_results.load_json_file`, with
their defaults, in the order the script writes them. -/
def mergeHeadFields : List (String × JValue) :=
  [("tool", .jstr ""), ("service", .jstr ""), ("dockerfile_type", .jstr ""),
   ("cache_scenario", .jstr ""), ("run_number", .jnum 0),
   ("timestamp", .jstr ""), ("ci_system", .jstr "")]

/-- The performance metrics with `merge_results`' defaults, in the
order the script writes them. -/
def mergeMetricFields : List (String × JValue) :=
  [("build_duration_seconds", .jnum 0), ("cpu_percent", .jnum 0),
   ("cpu_user_seconds", .jnum 0), ("cpu_system_seconds", .jnum 0),
   ("memory_peak_mb", .jnum 0), ("image_size", .jstr ""),
   ("image_size_bytes", .jnum 0), ("cache_hits", .jnum 0),
   ("cache_total_steps", .jnum 0), ("cache_hit_ratio", .jnum 0)]

/-- The flattening step of `merge_results.load_json_file` (lines
19–43): metrics come only from `perf = data.get('performance', {})`,
then `exit_code` and `source_file` are appended. -/
def mergeFlatten (data : JValue) (basename : String) : Except PyErr FlatRec := do
  let head ← mergeHeadFields.mapM fun (k, d) => do
    pure (k, ← pyGetD data k d)
  let perf ← pyGetD data "performance" (.jobj [])
  let mets ← mergeMetricFields.mapM fun (k, d) => do
    pure (k, ← pyGetD perf k d)
  let ec ← pyGetD data "exit_code" (.jnum 0)
  pure (head ++ mets ++ [("exit_code", ec), ("source_file", .jstr basename)])

/-- The function `merge_results.load_json_file`: the whole body is wrapped in
`try/except Exception`, so any failure (unparseable JSON, modelled as
`none` content, or any raised error) yields `None`. -/
def load_json_file (content : Option JValue) (basename : String) : Option FlatRec :=
  match content with
  | none => none
  | some data => (mergeFlatten data basename).toOption

/-- Whether `n` is a prefix of `h` (on character lists). -/
def listHasPre : List Char → List Char → Bool
  | [], _ => true
  | _ :: _, [] => false
  | a :: n, b :: h => a == b && listHasPre n h

/-- Whether `n` occurs as a contiguous substring of `h` (on character lists). -/
def listHasSub (n : List Char) : List Char → Bool
  | [] => n.isEmpty
  | c :: t => listHasPre n (c :: t) || listHasSub n t

/-- Python's `needle in hay` on strings. -/
def strHasSub (needle hay : String) : Bool :=
  listHasSub needle.toList hay.toList

/-- Python's `s.startswith(pre)`. -/
def strStartsWith (s pre : String) : Bool :=
  listHasPre pre.toList s.toList

/-- Python's `s.endswith(suf)`. -/
def strEndsWith (s suf : String) : Bool :=
  listHasPre suf.toList.reverse s.toList.reverse

/-- Python's `s.lower()` (ASCII, which is all the script compares). -/
def strToLower (s : String) : String :=
  ⟨s.toList.map Char.toLower⟩

/-- The security-scan filter of `collect_metrics.load_results` (line
23): the test is a substring check on the WHOLE file path, not on the
file name alone. -/
def collectExcluded (filepath : String) : Bool :=
  strHasSub "trivy" filepath || strHasSub "sbom" filepath ||
    strHasSub "security" filepath

/-- The filter of `merge_results.main` (lines 67–72): basename starts
with `trivy-` or `sbom-`, or contains `benchmark` case-insensitively. -/
def mergeExcluded (basename : String) : Bool :=
  strStartsWith basename "trivy-" || strStartsWith basename "sbom-" ||
    strHasSub "benchmark" (strToLower basename)

/-- A file under the results directory: its path relative to that
directory, split into segments (the last segment is the file name),
and its content — `some v` when it is valid JSON parsing to `v`,
`none` when `json.load` would raise `JSONDecodeError`. -/
structure SrcFile where
  relPath : List String
  content : Option JValue

/-- The file's name (last path segment). -/
def fileName (f : SrcFile) : String := f.relPath.getLastD ""

/-- The path string the script sees: `results_dir + "/" + relative path`. -/
def fullPath (dir : String) (f : SrcFile) : String :=
  dir ++ "/" ++ String.intercalate "/" f.relPath

/-- Matches the glob pattern `{results_dir}/*.json`: depth exactly 1. -/
def matchesTopGlob (f : SrcFile) : Bool :=
  f.relPath.length == 1 && strEndsWith (fileName f) ".json"

/-- Matches the glob pattern `{results_dir}/**/*.json` with
`recursive=True`: `**` spans zero or more directories, so this matches
at EVERY depth ≥ 1, including the top level. -/
def matchesRecGlob (f : SrcFile) : Bool :=
  !f.relPath.isEmpty && strEndsWith (fileName f) ".json"

/-- The per-file loop body of `collect_metrics.load_results` over an
already-globbed file list: excluded paths are skipped; unparseable
JSON (`content = none`) is caught by the `except (JSONDecodeError,
KeyError)` clause and skipped with a warning; an `AttributeError`
raised by flattening is NOT caught and aborts the whole load. -/
def collectLoadFiles (dir : String) : List SrcFile → Except PyErr (List FlatRec)
  | [] => .ok []
  | f :: fs =>
    if collectExcluded (fullPath dir f) then collectLoadFiles dir fs
    else
      match f.content with
      | none => collectLoadFiles dir fs
      | some data => do
          let r ← collectFlatten data
          let rest ← collectLoadFiles dir fs
          pure (r :: rest)

/-- The function `collect_metrics.load_results` (lines 16–61): iterates the matches
of `{results_dir}/*.json` and then of `{results_dir}/**/*.json`
(recursive), so a top-level `.json` file is visited by BOTH passes. -/
def load_results (dir : String) (files : List SrcFile) : Except PyErr (List FlatRec) :=
  collectLoadFiles dir (files.filter matchesTopGlob ++ files.filter matchesRecGlob)

/-- A candidate file of `merge_results.main`: the basename of a glob
hit and its content (`none` = unparseable). -/
structure MFile where
  basename : String
  content : Option JValue

/-- The record-collection loop of `merge_results.main` (lines 62–76):
skip excluded basenames, load each remaining file, keep the records
that loaded. -/
def mergeRecords : List MFile → List FlatRec
  | [] => []
  | f :: fs =>
    if mergeExcluded f.basename then mergeRecords fs
    else
      match load_json_file f.content f.basename with
      | none => mergeRecords fs
      | some r => r :: mergeRecords fs

/-- The CSV column order of `collect_metrics.export_to_csv` (lines
70–76). -/
def fieldnames : List String :=
  ["tool", "service", "dockerfile_type", "cache_scenario", "run_number",
   "timestamp", "ci_system", "build_duration_seconds",
   "cpu_percent", "cpu_user_seconds", "cpu_system_seconds",
   "memory_peak_mb", "image_size", "image_size_bytes",
   "cache_hits", "cache_total_steps", "cache_hit_ratio", "exit_code"]

/-- The CSV row `csv.DictWriter` writes for one record: the record's
value for each declared column, in column order (cells modelled at
value level; `extrasaction='ignore'` drops keys outside `fieldnames`). -/
def csvRow (r : FlatRec) : List JValue :=
  fieldnames.map (rlookup r)

/-- The function `collect_metrics.export_to_csv` (lines 64–83): `none` when the
result list is empty (no file written, "No results to export"
printed), otherwise the written CSV as header row plus one row per
record, in input order. -/
def export_to_csv (results : List FlatRec) : Option (List (List JValue)) :=
  if results.isEmpty then none
  else some ((fieldnames.map .jstr) :: results.map csvRow)

/-- A process environment: maps variable names to values. -/
def Env : Type := String → Option String

/-- Python's `os.environ.get(k, d)`. -/
def envGetD (env : Env) (k d : String) : String := (env k).getD d

/-- From `collect_metrics.main` line 120: `RESULTS_DIR` or `./results`. -/
def collectResultsDir (env : Env) : String :=
  envGetD env "RESULTS_DIR" "./results"

/-- From `collect_metrics.main` line 121: `OUTPUT_CSV` or
`{results_dir}/benchmark_results.csv`. -/
def collectOutputCsv (env : Env) : String :=
  envGetD env "OUTPUT_CSV" (collectResultsDir env ++ "/benchmark_results.csv")

/-- The glob patterns `merge_results.main` searches (lines 54–60):
hard-coded, independent of the environment. -/
def mergeSearchPaths (_ : Env) : List String :=
  ["results-github/*/*.json", "results-gitlab/*/*.json",
   "results-gitlab-public/*/*.json", "results/*.json",
   "final-results/*.json"]

/-- The merged-CSV path of `merge_results.main` (line 90): hard-coded,
independent of the environment. -/
def mergeOutputCsv (_ : Env) : String := "all_benchmark_results.csv"

/-- The externally visible outcome of one script run: which files were
written and the decision-relevant console messages. -/
structure RunOutcome where
  written : List String
  messages : List String

/-- The function `collect_metrics.main` (lines 119–136): when loading yields no
records it prints "No benchmark results found!" and returns before
`export_to_csv`, writing nothing; otherwise it writes the output CSV.
(The summary printout is modelled separately by the `ps*` functions.) -/
def collectMain (env : Env) (files : List SrcFile) : Except PyErr RunOutcome := do
  let results ← load_results (collectResultsDir env) files
  if results.isEmpty then
    pure ⟨[], ["No benchmark results found!"]⟩
  else
    pure ⟨[collectOutputCsv env], []⟩

/-- The function `merge_results.main` (lines 78–81, 89–91, 150–171): with no
records it prints "No JSON result files found!" and returns, writing
nothing; otherwise it writes the merged CSV and the six statistics
CSVs. -/
def mergeMain (env : Env) (files : List MFile) : RunOutcome :=
  if (mergeRecords files).isEmpty then
    ⟨[], ["No JSON result files found!"]⟩
  else
    ⟨[mergeOutputCsv env, "stats_build_duration.csv", "stats_image_size.csv",
      "stats_memory.csv", "stats_cpu.csv", "stats_cache.csv",
      "thesis_summary_table.csv"], []⟩

/-- The sort key of `merge_results.main` line 87
(`df.sort_values(['ci_system', 'tool', 'service', 'dockerfile_type',
'cache_scenario', 'run_number'])`), compared lexicographically; the
five categorical columns hold strings (compared as their character
lists, the same code-point order Python uses) and `run_number` a
number. -/
def recKey (r : FlatRec) :
    List Char ×ₗ (List Char ×ₗ (List Char ×ₗ (List Char ×ₗ (List Char ×ₗ ℚ)))) :=
  toLex ((toStr (rlookup r "ci_system")).toList,
  toLex ((toStr (rlookup r "tool")).toList,
  toLex ((toStr (rlookup r "service")).toList,
  toLex ((toStr (rlookup r "dockerfile_type")).toList,
  toLex ((toStr (rlookup r "cache_scenario")).toList,
    toNum (rlookup r "run_number"))))))

/-- Row comparison used by the sort: ascending on `recKey`. -/
def recLe (a b : FlatRec) : Prop := recKey a ≤ recKey b

instance : DecidableRel recLe :=
  fun a b => inferInstanceAs (Decidable (recKey a ≤ recKey b))

instance : IsTotal FlatRec recLe := ⟨fun a b => le_total (recKey a) (recKey b)⟩

instance : IsTrans FlatRec recLe := ⟨fun _ _ _ h h' => le_trans h h'⟩

/-- Strict version of `recLe`. -/
def recLt (a b : FlatRec) : Prop := recKey a < recKey b

instance : IsAntisymm FlatRec recLt :=
  ⟨fun _ _ h h' => absurd h' (lt_asymm h)⟩

/-- The row reordering `df.sort_values(...)` performs on the record
list: a permutation of the rows that is sorted by `recKey`. -/
def sortRecords (l : List FlatRec) : List FlatRec :=
  List.insertionSort recLe l

/-- The composite grouping key of the main statistics blocks of
`merge_results.main` (`groupby(['ci_system', 'tool',
'cache_scenario'])`). -/
def key3 (r : FlatRec) : List JValue :=
  [rlookup r "ci_system", rlookup r "tool", rlookup r "cache_scenario"]

/-- The numeric column values of the records of group `k`: pandas
aggregates over EVERY row of the group, zero values included. -/
def groupVals (recs : List FlatRec) (k : List JValue) (fld : String) : List ℚ :=
  (recs.filter fun r => beqJList (key3 r) k).map fun r => toNum (rlookup r fld)

/-- Left-fold sum, as an aggregation pass over the values. -/
def aggSum (xs : List ℚ) : ℚ := xs.foldl (· + ·) 0

/-- Aggregated `mean`: sum over count; undefined (NaN) on an empty
group. -/
def aggMean (xs : List ℚ) : Option ℚ :=
  if xs.length = 0 then none else some (aggSum xs / xs.length)

/-- Aggregated sample variance — the square of pandas' `std` (ddof=1),
by the one-pass formula `(Σx² − n·mean²)/(n−1)`; undefined (NaN) when
fewer than two values. -/
def aggVar (xs : List ℚ) : Option ℚ :=
  if xs.length ≤ 1 then none
  else some ((aggSum (xs.map fun x => x * x)
      - xs.length * (aggSum xs / xs.length) ^ 2) / (xs.length - 1))

/-- Aggregated `min`: fold of binary `min` over the group's values. -/
def aggMin : List ℚ → Option ℚ
  | [] => none
  | x :: xs => some (xs.foldl min x)

/-- Aggregated `max`: fold of binary `max` over the group's values. -/
def aggMax : List ℚ → Option ℚ
  | [] => none
  | x :: xs => some (xs.foldl max x)

/-- The `mean/std/min/max/count` aggregation row `merge_results.main`
computes for the group `k` of column `fld` (std represented by its
square, the sample variance). -/
def mergeGroupStats (recs : List FlatRec) (k : List JValue) (fld : String) :
    Option ℚ × Option ℚ × Option ℚ × Option ℚ × ℕ :=
  let xs := groupVals recs k fld
  (aggMean xs, aggVar xs, aggMin xs, aggMax xs, xs.length)

/-- Manually computed mean: `(x₁ + ... + xₙ) / n`. -/
def specMean (xs : List ℚ) : Option ℚ :=
  if xs = [] then none else some (xs.sum / xs.length)

/-- Manually computed sample variance: `Σ(xᵢ − mean)² / (n − 1)`. -/
def specVar (xs : List ℚ) : Option ℚ :=
  if xs.length ≤ 1 then none
  else some ((xs.map fun x => (x - xs.sum / xs.length) ^ 2).sum / (xs.length - 1))

/-- Manually computed minimum, by structural recursion. -/
def specMin : List ℚ → Option ℚ
  | [] => none
  | x :: xs => some (match specMin xs with | none => x | some m => min x m)

/-- Manually computed maximum, by structural recursion. -/
def specMax : List ℚ → Option ℚ
  | [] => none
  | x :: xs => some (match specMax xs with | none => x | some m => max x m)

/-- Python's `v is None`. -/
def isNullJ : JValue → Bool
  | .jnull => true
  | _ => false

/-- The composite grouping key of `collect_metrics.print_summary`
(line 92): `(tool, service, dockerfile_type, cache_scenario)`. -/
def key4 (r : FlatRec) : List JValue :=
  [rlookup r "tool", rlookup r "service", rlookup r "dockerfile_type",
   rlookup r "cache_scenario"]

/-- The records `print_summary` groups at key `k` (lines 90–93): only
records whose `build_duration_seconds` is not `None` enter a group. -/
def psGroup (recs : List FlatRec) (k : List JValue) : List FlatRec :=
  (recs.filter fun r => !isNullJ (rlookup r "build_duration_seconds")).filter
    fun r => beqJList (key4 r) k

/-- The metric values `print_summary` feeds to `statistics.mean`
(lines 106–109): the group's values FILTERED BY TRUTHINESS, so zero
values are dropped. -/
def psVals (recs : List FlatRec) (k : List JValue) (fld : String) : List ℚ :=
  (((psGroup recs k).map fun r => rlookup r fld).filter truthy).map toNum

/-- The per-group per-metric mean `print_summary` prints (lines
111–114): `statistics.mean` of the truthy values, or 0 when none
remain. -/
def psMean (recs : List FlatRec) (k : List JValue) (fld : String) : ℚ :=
  let xs := psVals recs k fld
  if xs.isEmpty then 0 else aggSum xs / xs.length

/-- The performance metrics that default to 0 in both loaders. -/
def zeroDefaultMetrics : List String :=
  ["cpu_percent", "cpu_user_seconds", "cpu_system_seconds",
   "memory_peak_mb", "image_size_bytes", "cache_hits",
   "cache_total_steps", "cache_hit_ratio"]

/-- Fixture: a minimal valid result document. -/
def sampleDoc : JValue := .jobj [("tool", .jstr "docker")]

/-- Fixture: the record `collect_metrics` flattens `sampleDoc` to. -/
def sampleRec : FlatRec :=
  [("tool", .jstr "docker"), ("service", .jnull), ("dockerfile_type", .jnull),
   ("cache_scenario", .jnull), ("run_number", .jnull), ("timestamp", .jnull),
   ("ci_system", .jnull), ("exit_code", .jnum 0),
   ("build_duration_seconds", .jnull), ("cpu_percent", .jnum 0),
   ("cpu_user_seconds", .jnum 0), ("cpu_system_seconds", .jnum 0),
   ("memory_peak_mb", .jnum 0), ("image_size", .jnull),
   ("image_size_bytes", .jnum 0), ("cache_hits", .jnum 0),
   ("cache_total_steps", .jnum 0), ("cache_hit_ratio", .jnum 0)]

/-- Fixture: a FLAT-schema document carrying a metric at top level. -/
def flatDoc : JValue := .jobj [("cpu_percent", .jnum 50)]

/-- Fixture: group documents with `cpu_percent` 0 and 10. -/
def c2docA : JValue := .jobj [("tool", .jstr "kaniko"), ("service", .jstr "api"),
  ("dockerfile_type", .jstr "std"), ("cache_scenario", .jstr "cold"),
  ("build_duration_seconds", .jnum 1), ("cpu_percent", .jnum 0)]

/-- Fixture: like `c2docA` but with `cpu_percent` 10. -/
def c2docB : JValue := .jobj [("tool", .jstr "kaniko"), ("service", .jstr "api"),
  ("dockerfile_type", .jstr "std"), ("cache_scenario", .jstr "cold"),
  ("build_duration_seconds", .jnum 1), ("cpu_percent", .jnum 10)]

/-- Fixture: the record `collect_metrics` flattens `c2docA` to. -/
def c2recA : FlatRec :=
  [("tool", .jstr "kaniko"), ("service", .jstr "api"), ("dockerfile_type", .jstr "std"),
   ("cache_scenario", .jstr "cold"), ("run_number", .jnull), ("timestamp", .jnull),
   ("ci_system", .jnull), ("exit_code", .jnum 0),
   ("build_duration_seconds", .jnum 1), ("cpu_percent", .jnum 0),
   ("cpu_user_seconds", .jnum 0), ("cpu_system_seconds", .jnum 0),
   ("memory_peak_mb", .jnum 0), ("image_size", .jnull), ("image_size_bytes", .jnum 0),
   ("cache_hits", .jnum 0), ("cache_total_steps", .jnum 0), ("cache_hit_ratio", .jnum 0)]

/-- Fixture: the record `collect_metrics` flattens `c2docB` to. -/
def c2recB : FlatRec :=
  [("tool", .jstr "kaniko"), ("service", .jstr "api"), ("dockerfile_type", .jstr "std"),
   ("cache_scenario", .jstr "cold"), ("run_number", .jnull), ("timestamp", .jnull),
   ("ci_system", .jnull), ("exit_code", .jnum 0),
   ("build_duration_seconds", .jnum 1), ("cpu_percent", .jnum 10),
   ("cpu_user_seconds", .jnum 0), ("cpu_system_seconds", .jnum 0),
   ("memory_peak_mb", .jnum 0), ("image_size", .jnull), ("image_size_bytes", .jnum 0),
   ("cache_hits", .jnum 0), ("cache_total_steps", .jnum 0), ("cache_hit_ratio", .jnum 0)]

/-- Fixture: the `print_summary` group key shared by `c2recA`/`c2recB`. -/
def c2key : List JValue := [.jstr "kaniko", .jstr "api", .jstr "std", .jstr "cold"]

/-- Fixture: two records sharing the FULL sort key, differing only in
`timestamp`. -/
def tieRec1 : FlatRec :=
  [("ci_system", .jstr "gh"), ("tool", .jstr "kaniko"), ("service", .jstr "api"),
   ("dockerfile_type", .jstr "std"), ("cache_scenario", .jstr "cold"),
   ("run_number", .jnum 1), ("timestamp", .jstr "t1")]

/-- Fixture: like `tieRec1` with the other timestamp. -/
def tieRec2 : FlatRec :=
  [("ci_system", .jstr "gh"), ("tool", .jstr "kaniko"), ("service", .jstr "api"),
   ("dockerfile_type", .jstr "std"), ("cache_scenario", .jstr "cold"),
   ("run_number", .jnum 1), ("timestamp", .jstr "t2")]

/-- Fixture: an environment that sets both path variables. -/
def envBoth : Env := fun k =>
  if k = "RESULTS_DIR" then some "my-results"
  else if k = "OUTPUT_CSV" then some "custom.csv"
  else none

/-- Whether `v` is a Python dict (JSON object). -/
def isObjJ : JValue → Bool
  | .jobj _ => true
  | _ => false

/-- Fixture: the record `merge_results` flattens `sampleDoc` to, for a
file named `run1.json`. -/
def mergeSampleRec : FlatRec :=
  [("tool", .jstr "docker"), ("service", .jstr ""), ("dockerfile_type", .jstr ""),
   ("cache_scenario", .jstr ""), ("run_number", .jnum 0), ("timestamp", .jstr ""),
   ("ci_system", .jstr ""),
   ("build_duration_seconds", .jnum 0), ("cpu_percent", .jnum 0),
   ("cpu_user_seconds", .jnum 0), ("cpu_system_seconds", .jnum 0),
   ("memory_peak_mb", .jnum 0), ("image_size", .jstr ""),
   ("image_size_bytes", .jnum 0), ("cache_hits", .jnum 0),
   ("cache_total_steps", .jnum 0), ("cache_hit_ratio", .jnum 0),
   ("exit_code", .jnum 0), ("source_file", .jstr "run1.json")]

/-- Fixture: the `merge_results` grouping key of `c2recA`/`c2recB`
(`ci_system`, `tool`, `cache_scenario`). -/
def c2mkey : List JValue := [.jnull, .jstr "kaniko", .jstr "cold"]

/-- Fixture: the record `collect_metrics` flattens `flatDoc` to — the
flat-schema `cpu_percent` IS picked up. -/
def c7flatRec : FlatRec :=
  [("tool", .jnull), ("service", .jnull), ("dockerfile_type", .jnull),
   ("cache_scenario", .jnull), ("run_number", .jnull), ("timestamp", .jnull),
   ("ci_system", .jnull), ("exit_code", .jnum 0),
   ("build_duration_seconds", .jnull), ("cpu_percent", .jnum 50),
   ("cpu_user_seconds", .jnum 0), ("cpu_system_seconds", .jnum 0),
   ("memory_peak_mb", .jnum 0), ("image_size", .jnull), ("image_size_bytes", .jnum 0),
   ("cache_hits", .jnum 0), ("cache_total_steps", .jnum 0), ("cache_hit_ratio", .jnum 0)]

/-- Fixture: the record `merge_results` flattens `flatDoc` to — the
flat-schema `cpu_percent` is LOST (defaults to 0). -/
def c7mergeRec : FlatRec :=
  [("tool", .jstr ""), ("service", .jstr ""), ("dockerfile_type", .jstr ""),
   ("cache_scenario", .jstr ""), ("run_number", .jnum 0), ("timestamp", .jstr ""),
   ("ci_system", .jstr ""),
   ("build_duration_seconds", .jnum 0), ("cpu_percent", .jnum 0),
   ("cpu_user_seconds", .jnum 0), ("cpu_system_seconds", .jnum 0),
   ("memory_peak_mb", .jnum 0), ("image_size", .jstr ""),
   ("image_size_bytes", .jnum 0), ("cache_hits", .jnum 0),
   ("cache_total_steps", .jnum 0), ("cache_hit_ratio", .jnum 0),
   ("exit_code", .jnum 0), ("source_file", .jstr "x.json")]

/-! ### Helper lemmas -/

theorem exc_bind_ok {α β : Type} (a : α) (f : α → Except PyErr β) :
    (Except.ok a >>= f) = f a := rfl

theorem exc_pure {α : Type} (a : α) : (pure a : Except PyErr α) = .ok a := rfl

theorem exc_bind_error {α β : Type} (e : PyErr) (f : α → Except PyErr β) :
    (Except.error e >>= f) = .error e := rfl

/-- Shape of a successful `collect_metrics` flatten: head fields come
from the top level, metrics from whatever `data.get('performance',
data)` produced. -/
theorem collectFlatten_obj (fs pfs : List (String × JValue))
    (h : (fs.lookup "performance").getD (.jobj fs) = .jobj pfs) :
    collectFlatten (.jobj fs) =
      .ok ((collectHeadFields.map fun kd => (kd.1, (fs.lookup kd.1).getD kd.2)) ++
           (collectMetricFields.map fun kd => (kd.1, (pfs.lookup kd.1).getD kd.2))) := by
  simp [collectFlatten, collectHeadFields, collectMetricFields, pyGetD,
    List.mapM.loop, exc_bind_ok, exc_pure, h]

/-- Shape of a successful `merge_results` flatten: metrics come from
whatever `data.get('performance', {})` produced. -/
theorem mergeFlatten_obj (fs pfs : List (String × JValue)) (bn : String)
    (h : (fs.lookup "performance").getD (.jobj []) = .jobj pfs) :
    mergeFlatten (.jobj fs) bn =
      .ok ((mergeHeadFields.map fun kd => (kd.1, (fs.lookup kd.1).getD kd.2)) ++
           (mergeMetricFields.map fun kd => (kd.1, (pfs.lookup kd.1).getD kd.2)) ++
           [("exit_code", (fs.lookup "exit_code").getD (.jnum 0)),
            ("source_file", .jstr bn)]) := by
  simp [mergeFlatten, mergeHeadFields, mergeMetricFields, pyGetD,
    List.mapM.loop, exc_bind_ok, exc_pure, h]

/-! ### C5 -/

/-- C5: FALSIFIED BY THE CODE (code bug).  A single valid top-level
JSON file is matched by BOTH glob patterns of `load_results`
(`dir/*.json` and the recursive `dir/**/*.json`, whose `**` also spans
zero directories), so it is read twice and contributes TWO identical
records, where the spec's "read once" lifecycle promises one.  A file
one directory deeper is matched only by the second pattern and
contributes one record. -/
theorem c5_top_level_file_loaded_twice :
    load_results "results" [⟨["a.json"], some sampleDoc⟩] = .ok [sampleRec, sampleRec] ∧
    load_results "results" [⟨["sub", "a.json"], some sampleDoc⟩] = .ok [sampleRec] :=
  ⟨rfl, rfl⟩

/-! ### C6 -/

/-- C6: when loading yields no records, each script prints its clear
"no results" message, writes no output file, and returns normally. -/
theorem c6_empty_results_no_output (env : Env) (files : List SrcFile)
    (mfiles : List MFile) :
    (load_results (collectResultsDir env) files = .ok [] →
      collectMain env files = .ok ⟨[], ["No benchmark results found!"]⟩) ∧
    ((mergeRecords mfiles).isEmpty = true →
      mergeMain env mfiles = ⟨[], ["No JSON result files found!"]⟩) := by
  constructor
  · intro h
    simp [collectMain, h, exc_bind_ok, exc_pure]
  · intro h
    simp [mergeMain, h]

/-- C6 witness: the empty directory. -/
theorem c6_empty_results_no_output_witness :
    collectMain (fun _ => none) [] = .ok ⟨[], ["No benchmark results found!"]⟩ ∧
    mergeMain (fun _ => none) [] = ⟨[], ["No JSON result files found!"]⟩ :=
  ⟨(c6_empty_results_no_output (fun _ => none) [] []).1 rfl,
   (c6_empty_results_no_output (fun _ => none) [] []).2 rfl⟩

/-! ### C8 -/

/-- C8 counterexample: `merge_results` ignores the environment — with
`OUTPUT_CSV` set to `custom.csv` its output path is still the
hard-coded `all_benchmark_results.csv`, and its search patterns equal
those of the empty environment. -/
theorem c8_counterexample :
    envBoth "OUTPUT_CSV" = some "custom.csv" ∧
    mergeOutputCsv envBoth = "all_benchmark_results.csv" ∧
    mergeOutputCsv envBoth ≠ "custom.csv" ∧
    mergeSearchPaths envBoth = mergeSearchPaths (fun _ => none) :=
  ⟨rfl, rfl, by decide, rfl⟩

/-- C8 (amended): only `collect_metrics` selects its paths from the
environment (`RESULTS_DIR`, `OUTPUT_CSV`, with defaults);
`merge_results` uses hard-coded search patterns and output path,
independent of the environment. -/
theorem c8_env_selection (env : Env) :
    (∀ d, env "RESULTS_DIR" = some d → collectResultsDir env = d) ∧
    (∀ o, env "OUTPUT_CSV" = some o → collectOutputCsv env = o) ∧
    (env "RESULTS_DIR" = none → collectResultsDir env = "./results") ∧
    (env "OUTPUT_CSV" = none →
      collectOutputCsv env = collectResultsDir env ++ "/benchmark_results.csv") ∧
    mergeOutputCsv env = "all_benchmark_results.csv" ∧
    mergeSearchPaths env =
      ["results-github/*/*.json", "results-gitlab/*/*.json",
       "results-gitlab-public/*/*.json", "results/*.json",
       "final-results/*.json"] := by
  refine ⟨?_, ?_, ?_, ?_, rfl, rfl⟩
  · intro d h
    simp [collectResultsDir, envGetD, h]
  · intro o h
    simp [collectOutputCsv, envGetD, h]
  · intro h
    simp [collectResultsDir, envGetD, h]
  · intro h
    simp [collectOutputCsv, envGetD, h]

/-- C8 witness: a concrete environment setting both variables. -/
theorem c8_env_selection_witness :
    collectResultsDir envBoth = "my-results" ∧ collectOutputCsv envBoth = "custom.csv" :=
  ⟨(c8_env_selection envBoth).1 "my-results" rfl,
   (c8_env_selection envBoth).2.1 "custom.csv" rfl⟩

/-! ### C3 -/

/-- C3 counterexample: a benchmark file whose FILENAME carries no
security-scan marker (`data.json`, valid content) is nevertheless
excluded by `collect_metrics`, because the marker check runs on the
whole path and the file sits in a directory named `security`. -/
theorem c3_counterexample :
    collectExcluded "data.json" = false ∧ mergeExcluded "data.json" = false ∧
    collectFlatten sampleDoc = .ok sampleRec ∧
    load_results "results" [⟨["security", "data.json"], some sampleDoc⟩] = .ok [] :=
  ⟨rfl, rfl, rfl, rfl⟩

/-- C3 (amended): `collect_metrics` excludes a file exactly when its
WHOLE PATH contains `trivy`, `sbom` or `security` (so directory names
count too); `merge_results` excludes a file exactly when its basename
starts with `trivy-` or `sbom-` or contains `benchmark`
case-insensitively; files passing these filters are included. -/
theorem c3_exclusion_is_path_based (dir : String) (f : SrcFile) (d : JValue)
    (r : FlatRec) (hc : f.content = some d) (hf : collectFlatten d = .ok r)
    (hm : matchesRecGlob f = true) :
    (collectExcluded (fullPath dir f) = true → load_results dir [f] = .ok []) ∧
    (collectExcluded (fullPath dir f) = false → load_results dir [f] ≠ .ok []) ∧
    ∀ (bn : String) (c : Option JValue) (rc : FlatRec),
      load_json_file c bn = some rc →
      (mergeExcluded bn = true → mergeRecords [⟨bn, c⟩] = []) ∧
      (mergeExcluded bn = false → mergeRecords [⟨bn, c⟩] = [rc]) := by
  refine ⟨?_, ?_, ?_⟩
  · intro he
    by_cases ht : matchesTopGlob f <;>
      simp [load_results, List.filter_cons, ht, hm, collectLoadFiles, he]
  · intro he
    by_cases ht : matchesTopGlob f <;>
      simp [load_results, List.filter_cons, ht, hm, collectLoadFiles, he, hc, hf,
        exc_bind_ok, exc_pure]
  · intro bn c rc hl
    constructor
    · intro he
      simp [mergeRecords, he]
    · intro he
      simp [mergeRecords, he, hl]

/-- C3 witness: a `trivy-` file is dropped by `collect_metrics`; a
clean `run1.json` is kept by `merge_results`. -/
theorem c3_exclusion_is_path_based_witness :
    load_results "results" [⟨["sub", "trivy-report.json"], some sampleDoc⟩] = .ok [] ∧
    mergeRecords [⟨"run1.json", some sampleDoc⟩] = [mergeSampleRec] := by
  have h := c3_exclusion_is_path_based "results"
    ⟨["sub", "trivy-report.json"], some sampleDoc⟩ sampleDoc sampleRec rfl rfl rfl
  exact ⟨h.1 rfl, (h.2.2 "run1.json" (some sampleDoc) mergeSampleRec rfl).2 rfl⟩

/-! ### C4 -/

/-- Files with unparseable content are transparent to
`collect_metrics`' loading loop. -/
theorem collectLoadFiles_skip_unparsed (dir : String) (l : List SrcFile) :
    collectLoadFiles dir (l.filter fun f => f.content.isSome) =
      collectLoadFiles dir l := by
  induction l with
  | nil => rfl
  | cons f fs ih =>
    cases hc : f.content with
    | none =>
      by_cases he : collectExcluded (fullPath dir f) <;>
        simp [List.filter_cons, hc, collectLoadFiles, he, ih]
    | some d =>
      by_cases he : collectExcluded (fullPath dir f) <;>
        simp [List.filter_cons, hc, collectLoadFiles, he, ih]

/-- A globbed, non-excluded file whose flattening raises aborts the
whole `load_results` run. -/
theorem collectLoadFiles_error_of_mem (dir : String) (l : List SrcFile)
    (f : SrcFile) (d : JValue) (hmem : f ∈ l)
    (he : collectExcluded (fullPath dir f) = false)
    (hc : f.content = some d) (hf : collectFlatten d = .error .attributeError) :
    collectLoadFiles dir l = .error .attributeError := by
  induction l with
  | nil => cases hmem
  | cons g gs ih =>
    rcases List.mem_cons.mp hmem with rfl | hmem'
    · simp [collectLoadFiles, he, hc, hf, exc_bind_error]
    · by_cases hex : collectExcluded (fullPath dir g) = true
      · simpa [collectLoadFiles, hex] using ih hmem'
      · cases hgc : g.content with
        | none => simpa [collectLoadFiles, hex, hgc] using ih hmem'
        | some dg =>
          cases hfg : collectFlatten dg with
          | error e =>
            cases e
            simp [collectLoadFiles, hex, hgc, hfg, exc_bind_error]
          | ok rg =>
            simp [collectLoadFiles, hex, hgc, hfg, exc_bind_ok, ih hmem']

/-- C4 (amended): unparseable JSON is non-fatal in both loaders — the
run proceeds exactly as if those files were absent (`merge_results`
additionally never raises at all, its loader being total); but in
`collect_metrics`, a file whose JSON parses to a NON-OBJECT raises an
uncaught `AttributeError` that aborts the whole load. -/
theorem c4_parse_failure_handling (dir : String) (files : List SrcFile) :
    (load_results dir files =
      load_results dir (files.filter fun f => f.content.isSome)) ∧
    (∀ mfiles : List MFile,
      mergeRecords mfiles = mergeRecords (mfiles.filter fun f => f.content.isSome)) ∧
    (∀ d : JValue, isObjJ d = false → collectFlatten d = .error .attributeError) ∧
    (∀ (f : SrcFile) (d : JValue), f ∈ files → matchesRecGlob f = true →
      collectExcluded (fullPath dir f) = false → f.content = some d →
      isObjJ d = false → load_results dir files = .error .attributeError) := by
  refine ⟨?_, ?_, ?_, ?_⟩
  · rw [load_results, load_results,
      List.filter_comm matchesTopGlob (fun (f : SrcFile) => f.content.isSome),
      List.filter_comm matchesRecGlob (fun (f : SrcFile) => f.content.isSome),
      ← List.filter_append, collectLoadFiles_skip_unparsed]
  · intro mfiles
    induction mfiles with
    | nil => rfl
    | cons f fs ih =>
      cases hc : f.content with
      | none =>
        by_cases he : mergeExcluded f.basename <;>
          simp [List.filter_cons, hc, mergeRecords, he, load_json_file, ih]
      | some d =>
        by_cases he : mergeExcluded f.basename <;>
          simp [List.filter_cons, hc, mergeRecords, he, load_json_file, ih]
  · intro d hd
    cases d <;> first | rfl | simp [isObjJ] at hd
  · intro f d hmem hm he hc hd
    have hobj : collectFlatten d = .error .attributeError := by
      cases d <;> first | rfl | simp [isObjJ] at hd
    exact collectLoadFiles_error_of_mem dir _ f d
      (List.mem_append_right _ (List.mem_filter.mpr ⟨hmem, hm⟩)) he hc hobj

/-- C4 counterexample: a file holding the valid JSON value `[]` (not
an object) makes `load_results` raise instead of warning and
skipping. -/
theorem c4_counterexample :
    load_results "results" [⟨["a.json"], some (.jarr [])⟩] = .error .attributeError :=
  rfl

/-- C4 witness: a concrete non-object file aborts the load; concrete
unparseable files are skipped. -/
theorem c4_parse_failure_handling_witness :
    load_results "results" [⟨["b.json"], some (.jnum 3)⟩] = .error .attributeError :=
  (c4_parse_failure_handling "results" [⟨["b.json"], some (.jnum 3)⟩]).2.2.2
    ⟨["b.json"], some (.jnum 3)⟩ (.jnum 3) (by simp) rfl rfl rfl rfl

/-! ### C1 -/

/-- C1: for every non-empty list of loaded records in which each
declared field is present, `export_to_csv` writes the header followed
by one row per record in order, and the cell in field `k`'s column of
a record's row is exactly that record's value for `k` — every declared
field round-trips unchanged. -/
theorem c1_csv_round_trip (results : List FlatRec) (hne : results ≠ [])
    (_hcomp : ∀ r ∈ results, ∀ k ∈ fieldnames, (r.lookup k).isSome = true) :
    export_to_csv results = some ((fieldnames.map .jstr) :: results.map csvRow) ∧
    ∀ r ∈ results, ∀ k ∈ fieldnames,
      (csvRow r).getD (fieldnames.indexOf k) .jnull = rlookup r k := by
  constructor
  · simp [export_to_csv, hne]
  · intro r hr k hk
    have hlt : fieldnames.indexOf k < fieldnames.length :=
      List.indexOf_lt_length.mpr hk
    rw [csvRow, List.getD_eq_getElem?_getD, List.getElem?_map,
      List.getElem?_eq_getElem hlt]
    simp [List.getElem_indexOf]

/-- C1 witness: one complete loaded record exported. -/
theorem c1_csv_round_trip_witness :
    export_to_csv [sampleRec] = some [fieldnames.map .jstr, csvRow sampleRec] := by
  have h := c1_csv_round_trip [sampleRec] (by simp) ?_
  · simpa using h.1
  · intro r hr k hk
    have hr' : r = sampleRec := by simpa using hr
    subst hr'
    fin_cases hk <;> rfl

/-! ### C2 -/

theorem foldl_add_acc (xs : List ℚ) : ∀ a : ℚ, xs.foldl (· + ·) a = a + xs.sum := by
  induction xs with
  | nil => intro a; simp
  | cons x xs ih => intro a; simp [List.sum_cons, ih, add_assoc]

/-- The aggregation's running sum is the list sum. -/
theorem aggSum_eq_sum (xs : List ℚ) : aggSum xs = xs.sum := by
  simp [aggSum, foldl_add_acc]

/-- The aggregated mean is the manual mean `Σx / n`. -/
theorem aggMean_eq_specMean (xs : List ℚ) : aggMean xs = specMean xs := by
  cases xs with
  | nil => rfl
  | cons x xs => simp [aggMean, specMean, aggSum_eq_sum]

theorem sum_sq_dev (xs : List ℚ) (m : ℚ) :
    (xs.map fun x => (x - m) ^ 2).sum
      = (xs.map fun x => x * x).sum - 2 * m * xs.sum + xs.length * m ^ 2 := by
  induction xs with
  | nil => simp
  | cons x xs ih =>
    simp only [List.map_cons, List.sum_cons, ih, List.length_cons]
    push_cast
    ring

/-- The aggregated sample variance (one-pass formula) is the manual
sample variance `Σ(x − mean)² / (n − 1)`. -/
theorem aggVar_eq_specVar (xs : List ℚ) : aggVar xs = specVar xs := by
  by_cases h : xs.length ≤ 1
  · simp [aggVar, specVar, h]
  · have hn : (xs.length : ℚ) ≠ 0 := by
      have h0 : 0 < xs.length := by omega
      exact_mod_cast h0.ne'
    simp only [aggVar, specVar, h, if_false, aggSum_eq_sum]
    congr 1
    rw [sum_sq_dev]
    have h2 : 2 * (xs.sum / (xs.length : ℚ)) * xs.sum
        = 2 * (xs.length : ℚ) * (xs.sum / (xs.length : ℚ)) ^ 2 := by
      field_simp [hn]
      ring
    rw [h2]
    ring

theorem foldl_min_eq_specMin (xs : List ℚ) : ∀ x : ℚ,
    xs.foldl min x = match specMin xs with | none => x | some m => min x m := by
  induction xs with
  | nil => intro x; rfl
  | cons y ys ih =>
    intro x
    simp only [List.foldl_cons, ih, specMin]
    cases specMin ys <;> simp [min_assoc]

/-- The aggregated minimum is the manual minimum. -/
theorem aggMin_eq_specMin (xs : List ℚ) : aggMin xs = specMin xs := by
  cases xs with
  | nil => rfl
  | cons x xs => simp [aggMin, specMin, foldl_min_eq_specMin]

theorem foldl_max_eq_specMax (xs : List ℚ) : ∀ x : ℚ,
    xs.foldl max x = match specMax xs with | none => x | some m => max x m := by
  induction xs with
  | nil => intro x; rfl
  | cons y ys ih =>
    intro x
    simp only [List.foldl_cons, ih, specMax]
    cases specMax ys <;> simp [max_assoc]

/-- The aggregated maximum is the manual maximum. -/
theorem aggMax_eq_specMax (xs : List ℚ) : aggMax xs = specMax xs := by
  cases xs with
  | nil => rfl
  | cons x xs => simp [aggMax, specMax, foldl_max_eq_specMax]

/-- C2 counterexample: two records share the `print_summary` group key
with `cpu_percent` values 0 and 10; the script's per-group mean is 10
(the zero value is DROPPED by the truthiness filter at lines 106–109 of
collect_metrics), while the manual mean over all records of the group
is 5 — so the claim's "records with a zero value are included" fails
for `print_summary`. -/
theorem c2_counterexample :
    collectFlatten c2docA = .ok c2recA ∧ collectFlatten c2docB = .ok c2recB ∧
    psMean [c2recA, c2recB] c2key "cpu_percent" = 10 ∧
    specMean ((psGroup [c2recA, c2recB] c2key).map
      fun r => toNum (rlookup r "cpu_percent")) = some 5 ∧
    (10 : ℚ) ≠ 5 := by
  refine ⟨rfl, rfl, ?_, ?_, by norm_num⟩
  · have h : psVals [c2recA, c2recB] c2key "cpu_percent" = [10] := rfl
    simp [psMean, h, aggSum]
  · have h : ((psGroup [c2recA, c2recB] c2key).map
        fun r => toNum (rlookup r "cpu_percent")) = [0, 10] := rfl
    rw [h]
    simp [specMean, aggSum]
    norm_num

/-- C2 (amended): the `merge_results` aggregation computes, per group
of its composite key, exactly the manually computed mean, sample
variance (std squared), min, max and count over ALL values of the
group's records — zero values included, every group record
contributing its value.  `collect_metrics.print_summary`, by contrast,
drops zero values from its per-metric means (see the
counterexample). -/
theorem c2_merge_stats_manual (recs : List FlatRec) (k : List JValue) (fld : String) :
    mergeGroupStats recs k fld =
      (specMean (groupVals recs k fld), specVar (groupVals recs k fld),
       specMin (groupVals recs k fld), specMax (groupVals recs k fld),
       (recs.filter fun r => beqJList (key3 r) k).length) ∧
    ∀ r ∈ recs, beqJList (key3 r) k = true →
      toNum (rlookup r fld) ∈ groupVals recs k fld := by
  constructor
  · simp [mergeGroupStats, aggMean_eq_specMean, aggVar_eq_specVar,
      aggMin_eq_specMin, aggMax_eq_specMax, groupVals]
  · intro r hr hk
    exact List.mem_map_of_mem _ (List.mem_filter.mpr ⟨hr, hk⟩)

/-- C2 witness: the zero value of `c2recA` is in its group's value
multiset. -/
theorem c2_merge_stats_manual_witness :
    toNum (rlookup c2recA "cpu_percent") ∈ groupVals [c2recA, c2recB] c2mkey "cpu_percent" :=
  (c2_merge_stats_manual [c2recA, c2recB] c2mkey "cpu_percent").2 c2recA (by simp) rfl

/-! ### C7 -/

/-- C7 counterexample: for the flat-schema record
`{"cpu_percent": 50}`, `collect_metrics` extracts 50 but
`merge_results` extracts 0 — the merge loader does NOT accept the flat
schema for performance metrics (its fallback is `{}`, not the record
itself). -/
theorem c7_counterexample :
    (collectFlatten flatDoc).map (fun r => rlookup r "cpu_percent") = .ok (.jnum 50) ∧
    (mergeFlatten flatDoc "x.json").map (fun r => rlookup r "cpu_percent") = .ok (.jnum 0) ∧
    JValue.jnum 50 ≠ JValue.jnum 0 := by
  refine ⟨rfl, rfl, ?_⟩
  intro h
  injection h with h'
  norm_num at h'

/-- C7 (amended): `collect_metrics` accepts both schemas — when
`performance` is absent each metric is read from the top level, and
when `performance` is a nested object each metric is read from it;
`merge_results` accepts only the nested schema — when `performance` is
absent EVERY metric is its bare default, top-level values ignored. -/
theorem c7_schema_handling (fs : List (String × JValue)) (bn : String) :
    (fs.lookup "performance" = none →
      collectFlatten (.jobj fs) =
        .ok ((collectHeadFields.map fun kd => (kd.1, (fs.lookup kd.1).getD kd.2)) ++
             (collectMetricFields.map fun kd => (kd.1, (fs.lookup kd.1).getD kd.2))) ∧
      mergeFlatten (.jobj fs) bn =
        .ok ((mergeHeadFields.map fun kd => (kd.1, (fs.lookup kd.1).getD kd.2)) ++
             mergeMetricFields ++
             [("exit_code", (fs.lookup "exit_code").getD (.jnum 0)),
              ("source_file", .jstr bn)])) ∧
    (∀ pfs, fs.lookup "performance" = some (.jobj pfs) →
      collectFlatten (.jobj fs) =
        .ok ((collectHeadFields.map fun kd => (kd.1, (fs.lookup kd.1).getD kd.2)) ++
             (collectMetricFields.map fun kd => (kd.1, (pfs.lookup kd.1).getD kd.2))) ∧
      mergeFlatten (.jobj fs) bn =
        .ok ((mergeHeadFields.map fun kd => (kd.1, (fs.lookup kd.1).getD kd.2)) ++
             (mergeMetricFields.map fun kd => (kd.1, (pfs.lookup kd.1).getD kd.2)) ++
             [("exit_code", (fs.lookup "exit_code").getD (.jnum 0)),
              ("source_file", .jstr bn)])) := by
  constructor
  · intro h
    refine ⟨collectFlatten_obj fs fs (by simp [h]), ?_⟩
    have hm := mergeFlatten_obj fs [] bn (by simp [h])
    simpa [List.lookup] using hm
  · intro pfs h
    exact ⟨collectFlatten_obj fs pfs (by simp [h]),
           mergeFlatten_obj fs pfs bn (by simp [h])⟩

/-- C7 witness: the two flattenings of the concrete flat document. -/
theorem c7_schema_handling_witness :
    collectFlatten flatDoc = .ok c7flatRec ∧
    mergeFlatten flatDoc "x.json" = .ok c7mergeRec := by
  have h := (c7_schema_handling [("cpu_percent", .jnum 50)] "x.json").1 rfl
  constructor
  · rw [show flatDoc = .jobj [("cpu_percent", .jnum 50)] from rfl, h.1]
    rfl
  · rw [show flatDoc = .jobj [("cpu_percent", .jnum 50)] from rfl, h.2]
    rfl

/-! ### C10 -/

/-- C10: in both loaders, each of the zero-default performance metrics
is `0` in the flattened record whenever it is absent from the place
the loader reads metrics from (`ppc`: what `collect_metrics`' fallback
`data.get('performance', data)` produced; `ppm`: what `merge_results`'
fallback `data.get('performance', {})` produced), and `exit_code` is
`0` whenever absent from the top level — so these columns are never
empty. -/
theorem c10_zero_defaults (fs ppc ppm : List (String × JValue)) (bn : String)
    (hpc : (fs.lookup "performance").getD (.jobj fs) = .jobj ppc)
    (hpm : (fs.lookup "performance").getD (.jobj []) = .jobj ppm) :
    (∀ m ∈ zeroDefaultMetrics, ppc.lookup m = none →
      (collectFlatten (.jobj fs)).map (fun r => rlookup r m) = .ok (.jnum 0)) ∧
    (∀ m ∈ zeroDefaultMetrics, ppm.lookup m = none →
      (mergeFlatten (.jobj fs) bn).map (fun r => rlookup r m) = .ok (.jnum 0)) ∧
    (fs.lookup "exit_code" = none →
      (collectFlatten (.jobj fs)).map (fun r => rlookup r "exit_code") = .ok (.jnum 0) ∧
      (mergeFlatten (.jobj fs) bn).map (fun r => rlookup r "exit_code") = .ok (.jnum 0)) := by
  have hc := collectFlatten_obj fs ppc hpc
  have hm := mergeFlatten_obj fs ppm bn hpm
  refine ⟨?_, ?_, ?_⟩
  · intro m hmem hnone
    fin_cases hmem <;>
      simp [hc, rlookup, collectHeadFields, collectMetricFields, hnone,
        Except.map, List.lookup]
  · intro m hmem hnone
    fin_cases hmem <;>
      simp [hm, rlookup, mergeHeadFields, mergeMetricFields, hnone,
        Except.map, List.lookup]
  · intro hnone
    constructor
    · simp [hc, rlookup, collectHeadFields, collectMetricFields, hnone,
        Except.map, List.lookup]
    · simp [hm, rlookup, mergeHeadFields, mergeMetricFields, hnone,
        Except.map, List.lookup]

/-- C10 witness: a record with neither metrics nor exit code gets
zeros. -/
theorem c10_zero_defaults_witness :
    (collectFlatten (.jobj [("tool", .jstr "x")])).map
      (fun r => rlookup r "cpu_percent") = .ok (.jnum 0) ∧
    (mergeFlatten (.jobj [("tool", .jstr "x")]) "w.json").map
      (fun r => rlookup r "exit_code") = .ok (.jnum 0) := by
  have h := c10_zero_defaults [("tool", .jstr "x")] [("tool", .jstr "x")] [] "w.json" rfl rfl
  exact ⟨h.1 "cpu_percent" (by simp [zeroDefaultMetrics]) rfl, (h.2.2 rfl).2⟩

/-! ### C9 -/

/-- A key-sorted list with pairwise-distinct keys is strictly
key-sorted. -/
theorem sorted_recLt_of (xs : List FlatRec) (hs : List.Sorted recLe xs)
    (hn : (xs.map recKey).Nodup) : List.Sorted recLt xs := by
  have hne : xs.Pairwise fun a b => recKey a ≠ recKey b := List.pairwise_map.mp hn
  exact (hs.and hne).imp fun h => lt_of_le_of_ne h.1 h.2

/-- C9 counterexample: two records share the full sort key (they
differ only in `timestamp`), and the sorted output preserves their
input order — so for inputs that differ only in file-discovery order
the merged CSV's row order differs.  "Output row order is independent
of discovery order" fails when full keys collide. -/
theorem c9_counterexample :
    ([tieRec1, tieRec2] : List FlatRec).Perm [tieRec2, tieRec1] ∧
    sortRecords [tieRec1, tieRec2] = [tieRec1, tieRec2] ∧
    sortRecords [tieRec2, tieRec1] = [tieRec2, tieRec1] ∧
    sortRecords [tieRec1, tieRec2] ≠ sortRecords [tieRec2, tieRec1] := by
  have h1 : sortRecords [tieRec1, tieRec2] = [tieRec1, tieRec2] := by rfl
  have h2 : sortRecords [tieRec2, tieRec1] = [tieRec2, tieRec1] := by rfl
  refine ⟨List.Perm.swap tieRec2 tieRec1 [], h1, h2, ?_⟩
  intro h
  rw [h1, h2] at h
  simp [tieRec1, tieRec2] at h

/-- C9 (amended): the merged rows are a permutation of the records
sorted ascending by the key (`ci_system`, `tool`, `service`,
`dockerfile_type`, `cache_scenario`, `run_number`); and whenever the
records' full keys are pairwise distinct, the output is independent of
discovery order (any permutation of the input sorts to the same row
list).  With full-key ties the output order depends on the input
order (see counterexample). -/
theorem c9_sorted_rows (l : List FlatRec) :
    List.Sorted recLe (sortRecords l) ∧ (sortRecords l).Perm l ∧
    ∀ l' : List FlatRec, l.Perm l' → (l.map recKey).Nodup →
      sortRecords l = sortRecords l' := by
  refine ⟨List.sorted_insertionSort recLe l, List.perm_insertionSort recLe l, ?_⟩
  intro l' hperm hnodup
  have hperm2 : (sortRecords l).Perm (sortRecords l') :=
    ((List.perm_insertionSort recLe l).trans hperm).trans
      (List.perm_insertionSort recLe l').symm
  have hn1 : ((sortRecords l).map recKey).Nodup :=
    (((List.perm_insertionSort recLe l).map recKey).nodup_iff).mpr hnodup
  have hn2 : ((sortRecords l').map recKey).Nodup :=
    (((List.perm_insertionSort recLe l').map recKey).nodup_iff).mpr
      ((hperm.map recKey).nodup_iff.mp hnodup)
  exact List.eq_of_perm_of_sorted hperm2
    (sorted_recLt_of _ (List.sorted_insertionSort recLe l) hn1)
    (sorted_recLt_of _ (List.sorted_insertionSort recLe l') hn2)

/-- C9 witness: two records with distinct keys sort identically from
either discovery order. -/
theorem c9_sorted_rows_witness :
    sortRecords [sampleRec, tieRec1] = sortRecords [tieRec1, sampleRec] :=
  (c9_sorted_rows [sampleRec, tieRec1]).2.2 [tieRec1, sampleRec]
    (List.Perm.swap tieRec1 sampleRec []) (by decide)
